import Mathlib

/-!
Verification of the camera object-detection overlay application
(src/src/App.js).  The development shallowly embeds the three parts of the
program the specification talks about:

* the overlay renderer `drawBBox` (App.js lines 55-112), modelled as the
  list of canvas-context operations it issues, with `ctx.measureText` kept
  abstract as a parameter;
* the initialization coordination inside `useEffect` (lines 120-154),
  modelled as settled-promise outcomes over abstract instants of the single
  JavaScript thread;
* the detection loop body `detectionFunction` (lines 45-50), modelled as its
  ordered synchronous action trace together with a step relation on an
  observable loop state (scheduled callbacks, in-flight detect calls,
  completed renders).

Numeric values (bounding-box coordinates, scores, measured text widths) are
modelled as exact rationals.
-/

namespace CameraApp

/-! ## Data model -/

/-- A detection result as produced by `model.detect`:
`{class, score, bbox: [x, y, width, height]}`.  The `bbox` array entries
`bbox[0] .. bbox[3]` are the fields `bboxX, bboxY, bboxW, bboxH`. -/
structure Prediction where
  cls : String
  score : ℚ
  bboxX : ℚ
  bboxY : ℚ
  bboxW : ℚ
  bboxH : ℚ
deriving DecidableEq

/-! ## Overlay renderer (`drawBBox`, App.js lines 55-112) -/

/-- `ctx.lineWidth = 4` (App.js line 72). -/
def lineWidth : ℚ := 4

/-- `const heightText = parseInt(ctx.font, 10)` with
`ctx.font = '12px sans-serif'` (App.js lines 74 and 82). -/
def heightText : ℚ := 12

/-- Two-digit zero-padded decimal rendering of a natural number below 100,
used for the fractional part of `toFixed(2)`. -/
def pad2 (k : ℕ) : String :=
  if k < 10 then "0" ++ toString k else toString k

/-- Printing of the scaled integer produced by `toFixed(2)`: `n` is the
value in hundredths; the output keeps exactly two digits after the decimal
point, trailing zeros included. -/
def toFixed2Int (n : ℤ) : String :=
  if n < 0 then
    "-" ++ toString ((-n) / 100) ++ "." ++ pad2 ((-n) % 100).toNat
  else
    toString (n / 100) ++ "." ++ pad2 (n % 100).toNat

/-- JavaScript `q.toFixed(2)`: the integer `n` for which `n / 100` is closest
to `q`, ties resolved toward the larger `n` (so `⌊q * 100 + 1/2⌋`), printed
with exactly two digits after the decimal point, trailing zeros kept. -/
def toFixed2 (q : ℚ) : String :=
  toFixed2Int ⌊q * 100 + 1 / 2⌋

/-- The label text
`prediction.class + ' ' + (prediction.score * 100).toFixed(2)`
(App.js line 78). -/
def predictionText (p : Prediction) : String :=
  p.cls ++ " " ++ toFixed2 (p.score * 100)

/-- One canvas-context operation issued by `drawBBox`. -/
inductive CanvasOp where
  | clearRect (x y w h : ℚ)
  | setStrokeStyle (c : String)
  | setLineWidth (w : ℚ)
  | setTextBaseline (b : String)
  | setFont (f : String)
  | strokeRect (x y w h : ℚ)
  | setFillStyle (c : String)
  | fillRect (x y w h : ℚ)
  | fillText (t : String) (x y : ℚ)
deriving DecidableEq

/-- The canvas operations issued for one prediction by the body of
`predictions.forEach` (App.js lines 76-111): the outline
`ctx.strokeRect(bbox[0], bbox[1], bbox[2], bbox[3])`, then the label
background `ctx.fillRect(bbox[0] - ctx.lineWidth / 2, bbox[1],
widthText + ctx.lineWidth, -heightText)`, then
`ctx.fillText(predictionText, bbox[0], bbox[1])`.  `measure` models
`ctx.measureText(s).width` under the font set at line 74. -/
def predictionOps (measure : String → ℚ) (p : Prediction) : List CanvasOp :=
  let widthText := measure (predictionText p)
  [ .strokeRect p.bboxX p.bboxY p.bboxW p.bboxH,
    .setFillStyle "#0F0",
    .fillRect (p.bboxX - lineWidth / 2) p.bboxY (widthText + lineWidth) (-heightText),
    .setFillStyle "#00F",
    .fillText (predictionText p) p.bboxX p.bboxY ]

/-- `predictions.forEach(...)` (App.js line 76): per-prediction operations,
in list order. -/
def forEachOps (measure : String → ℚ) : List Prediction → List CanvasOp
  | [] => []
  | p :: ps => predictionOps measure p ++ forEachOps measure ps

/-- `drawBBox` (App.js lines 55-112) as the ordered sequence of canvas
operations it issues: `ctx.clearRect(0, 0, ctx.canvas.width,
ctx.canvas.height)`, the four context-state assignments of lines 71-74, then
the `forEach` over the predictions. -/
def drawBBox (measure : String → ℚ) (canvasW canvasH : ℚ)
    (preds : List Prediction) : List CanvasOp :=
  [ .clearRect 0 0 canvasW canvasH,
    .setStrokeStyle "red",
    .setLineWidth lineWidth,
    .setTextBaseline "bottom",
    .setFont "12px sans-serif" ]
  ++ forEachOps measure preds

/-- Operations that put or remove pixels, as opposed to context-state
assignments. -/
def CanvasOp.isDraw : CanvasOp → Bool
  | .clearRect _ _ _ _ => true
  | .strokeRect _ _ _ _ => true
  | .fillRect _ _ _ _ => true
  | .fillText _ _ _ => true
  | _ => false

/-- The geometry of an outline (`strokeRect`) operation, when the operation
is one. -/
def CanvasOp.strokeGeom : CanvasOp → Option (ℚ × ℚ × ℚ × ℚ)
  | .strokeRect x y w h => some (x, y, w, h)
  | _ => none

/-! ## Initialization coordination (`useEffect`, App.js lines 120-154) -/

/-- Outcome of a settled JavaScript promise (values abstracted away). -/
inductive Outcome where
  | fulfilled
  | rejected
deriving DecidableEq

/-- A settled promise: the abstract instant at which it settles and how. -/
structure SettledPromise where
  time : ℕ
  outcome : Outcome
deriving DecidableEq

/-- The environment's behaviour during one session: whether `getUserMedia`
grants, the instant that request settles, the instant `onloadedmetadata`
fires when granted, and how and when `cocoSsd.load` settles. -/
structure Env where
  cameraGranted : Bool
  grantTime : ℕ
  metadataTime : ℕ
  modelOutcome : Outcome
  modelTime : ℕ
deriving DecidableEq

/-- `const promiseModel = cocoSsd.load('mobilenet_v2')` (App.js line 13). -/
def promiseModel (e : Env) : SettledPromise :=
  ⟨e.modelTime, e.modelOutcome⟩

/-- `promiseCamera` (App.js lines 138-147).  On grant, the `then` chain
resolves when `onloadedmetadata` fires.  On denial, the `.catch` handler
logs, alerts, and returns `undefined`, so the chain FULFILS (with
`undefined`) when the rejection is handled. -/
def promiseCamera (e : Env) : SettledPromise :=
  if e.cameraGranted then ⟨e.metadataTime, .fulfilled⟩
  else ⟨e.grantTime, .fulfilled⟩

/-- Number of times `alert('Activate your camera and refresh the page!')`
(App.js line 146) runs: the `.catch` handler of the once-settled
`getUserMedia` promise runs exactly once on denial and never on grant. -/
def alertCount (e : Env) : ℕ :=
  if e.cameraGranted then 0 else 1

/-- `Promise.all` of two promises: fulfilled when the later one fulfils if
both fulfil, otherwise rejected when the first rejection settles. -/
def promiseAll (a b : SettledPromise) : SettledPromise :=
  match a.outcome, b.outcome with
  | .fulfilled, .fulfilled => ⟨max a.time b.time, .fulfilled⟩
  | .rejected, .fulfilled => ⟨a.time, .rejected⟩
  | .fulfilled, .rejected => ⟨b.time, .rejected⟩
  | .rejected, .rejected => ⟨min a.time b.time, .rejected⟩

/-- `Promise.all([promiseModel, promiseCamera])` (App.js line 150). -/
def initPromise (e : Env) : SettledPromise :=
  promiseAll (promiseModel e) (promiseCamera e)

/-- Whether the `.then(values => detectionFunction(refVideo.current,
values[0]))` callback (App.js line 151) ever runs, i.e. whether the
detection loop starts. -/
def detectionStarted (e : Env) : Bool :=
  match (initPromise e).outcome with
  | .fulfilled => true
  | .rejected => false

/-- The instant at which `detectionFunction` is first invoked, when it is. -/
def detectionStartTime (e : Env) : Option ℕ :=
  if detectionStarted e then some (initPromise e).time else none

/-- Whether the `.catch(error => console.error(error))` (App.js line 152)
fires. -/
def initErrorLogged (e : Env) : Bool :=
  match (initPromise e).outcome with
  | .fulfilled => false
  | .rejected => true

/-! ## Detection loop (`detectionFunction`, App.js lines 45-50) -/

/-- The two synchronous actions in the body of `detectionFunction`. -/
inductive TickAction where
  | issueDetect
  | scheduleNext
deriving DecidableEq

/-- The body of `detectionFunction` as the ordered list of synchronous
actions it performs: line 46 issues `model.detect(video)` (attaching the
`drawBBox` continuation), then line 49 calls
`requestAnimationFrame(() => detectionFunction(video, model))`.
The body takes no input from any detect outcome: it is one constant
trace. -/
def detectionFunction : List TickAction :=
  [.issueDetect, .scheduleNext]

/-- Observable loop state: animation-frame callbacks scheduled but not yet
fired, detect calls issued but not yet settled, and completed renders. -/
structure LoopState where
  pending : ℕ
  inFlight : ℕ
  renders : ℕ
deriving DecidableEq

/-- Effect of one synchronous tick action on the loop state. -/
def applyAction (s : LoopState) : TickAction → LoopState
  | .issueDetect => { s with inFlight := s.inFlight + 1 }
  | .scheduleNext => { s with pending := s.pending + 1 }

/-- Running the whole body of `detectionFunction` from a state. -/
def runBody (s : LoopState) : LoopState :=
  detectionFunction.foldl applyAction s

/-- The state right after `Promise.all(...).then` invokes
`detectionFunction` directly (App.js line 151): no scheduled callback is
consumed; the body runs once. -/
def initState : LoopState :=
  runBody ⟨0, 0, 0⟩

/-- One asynchronous scheduler step: a scheduled animation-frame callback
fires and re-runs the body, or an in-flight detect call settles — a
resolution runs the `then` continuation (one render via `drawBBox`), a
rejection runs nothing (no rejection handler is attached at line 46). -/
inductive Step : LoopState → LoopState → Prop where
  | tick (s : LoopState) (h : 1 ≤ s.pending) :
      Step s (runBody { s with pending := s.pending - 1 })
  | resolve (s : LoopState) (h : 1 ≤ s.inFlight) :
      Step s { s with inFlight := s.inFlight - 1, renders := s.renders + 1 }
  | reject (s : LoopState) (h : 1 ≤ s.inFlight) :
      Step s { s with inFlight := s.inFlight - 1 }

/-- Loop states reachable once the loop has started. -/
inductive Reachable : LoopState → Prop where
  | init : Reachable initState
  | step {s t : LoopState} : Reachable s → Step s t → Reachable t

/-! ## Helper lemmas -/

theorem toFixed2_8345 : toFixed2 ((8345 / 10000 : ℚ) * 100) = "83.45" := by
  have h : (⌊((8345 / 10000 : ℚ) * 100) * 100 + 1 / 2⌋ : ℤ) = 8345 := by
    rw [Int.floor_eq_iff]
    norm_num
  rw [toFixed2, h]
  decide

theorem toFixed2_97 : toFixed2 ((97 / 100 : ℚ) * 100) = "97.00" := by
  have h : (⌊((97 / 100 : ℚ) * 100) * 100 + 1 / 2⌋ : ℤ) = 9700 := by
    rw [Int.floor_eq_iff]
    norm_num
  rw [toFixed2, h]
  decide

theorem predictionText_person :
    predictionText ⟨"person", 97 / 100, 10, 20, 100, 200⟩ = "person 97.00" := by
  show "person" ++ " " ++ toFixed2 ((97 / 100 : ℚ) * 100) = "person 97.00"
  rw [toFixed2_97]
  decide

theorem forEachOps_filterMap_strokeGeom (m : String → ℚ) (l : List Prediction) :
    (forEachOps m l).filterMap CanvasOp.strokeGeom
      = l.map fun p => (p.bboxX, p.bboxY, p.bboxW, p.bboxH) := by
  induction l with
  | nil => rfl
  | cons p ps ih =>
      simp [forEachOps, predictionOps, List.filterMap_append,
        CanvasOp.strokeGeom, ih]

theorem forEachOps_filter_isDraw (m : String → ℚ) (l : List Prediction) :
    (forEachOps m l).filter CanvasOp.isDraw
      = l.flatMap fun p =>
          [ CanvasOp.strokeRect p.bboxX p.bboxY p.bboxW p.bboxH,
            CanvasOp.fillRect (p.bboxX - lineWidth / 2) p.bboxY
              (m (predictionText p) + lineWidth) (-heightText),
            CanvasOp.fillText (predictionText p) p.bboxX p.bboxY ] := by
  induction l with
  | nil => rfl
  | cons p ps ih =>
      simp [forEachOps, predictionOps, List.filter_append,
        CanvasOp.isDraw, ih]

/-! ## Claims -/

/-- C1 (code bug): at the failing input — camera permission denied, model
load succeeds — the `.catch` handler at App.js line 144 returns `undefined`,
so `promiseCamera` fulfils; `Promise.all` therefore fulfils, and
`detectionFunction` IS invoked (the loop starts), even though the single
alert was surfaced.  This contradicts the claim (and the comment at line
149, "when model ready + camera is ready call our detectionFunction") that
the loop never starts on denial. -/
theorem camera_denied_loop_still_starts :
    detectionStarted ⟨false, 5, 0, .fulfilled, 3⟩ = true ∧
    alertCount ⟨false, 5, 0, .fulfilled, 3⟩ = 1 := by
  decide

/-- C2: when the camera is granted (so camera readiness is the
metadata-loaded resolution) and the model load fulfils, the first invocation
of the render path happens exactly when the later of the two readiness
signals resolves — hence never before either of them — for every relative
order of the two resolution instants. -/
theorem first_render_after_both (e : Env)
    (hc : e.cameraGranted = true) (hm : e.modelOutcome = .fulfilled) :
    detectionStartTime e = some (max e.modelTime e.metadataTime) ∧
    e.modelTime ≤ max e.modelTime e.metadataTime ∧
    e.metadataTime ≤ max e.modelTime e.metadataTime := by
  refine ⟨?_, le_max_left _ _, le_max_right _ _⟩
  simp [detectionStartTime, detectionStarted, initPromise, promiseAll,
    promiseModel, promiseCamera, hc, hm]

/-- Witness for C2 at a concrete environment (model at 4, metadata at 7). -/
theorem first_render_after_both_witness :
    detectionStartTime ⟨true, 0, 7, .fulfilled, 4⟩ = some (max 4 7) ∧
    4 ≤ max 4 7 ∧ 7 ≤ max 4 7 :=
  first_render_after_both ⟨true, 0, 7, .fulfilled, 4⟩ rfl rfl

/-- C3 (counterexample to the stated order): the body of
`detectionFunction` does NOT schedule the next tick first — its first
synchronous action is issuing `model.detect` (line 46); the
`requestAnimationFrame` call comes second (line 49). -/
theorem detect_issued_before_schedule :
    detectionFunction.head? = some .issueDetect ∧
    detectionFunction.head? ≠ some .scheduleNext := by
  decide

/-- C3 (amended): on every tick `detectionFunction` issues the asynchronous
detect call and then schedules the next tick; the scheduling is synchronous
within the tick body and does not wait on the detect call or its
resolution, so a reachable loop state has two detect calls in flight
simultaneously. -/
theorem tick_detect_then_schedule_overlap :
    detectionFunction = [.issueDetect, .scheduleNext] ∧
    ∃ s : LoopState, Reachable s ∧ 2 ≤ s.inFlight := by
  refine ⟨rfl, runBody { initState with pending := initState.pending - 1 },
    Reachable.step Reachable.init (Step.tick initState (by decide)), by decide⟩

/-- C4: the outline rectangles emitted by `drawBBox` are exactly, in order,
the input bounding boxes `(bbox[0], bbox[1], bbox[2], bbox[3])` of the
predictions — no clamping, scaling, or other modification, for every
measure function, canvas size, and prediction list. -/
theorem outline_geometry_exact (measure : String → ℚ) (cw ch : ℚ)
    (preds : List Prediction) :
    (drawBBox measure cw ch preds).filterMap CanvasOp.strokeGeom
      = preds.map fun p => (p.bboxX, p.bboxY, p.bboxW, p.bboxH) := by
  simp [drawBBox, List.filterMap_append, CanvasOp.strokeGeom,
    forEachOps_filterMap_strokeGeom]

/-- C5 (counterexample): for the prediction
`{class: "person", score: 0.97, bbox: [10, 20, 100, 200]}` under a measure
giving width 50, the label-background `fillRect` has width `54 = 50 + 4`
(measured width plus the line width) but height magnitude `12`, exactly the
text height: no single fixed padding is added to both dimensions, so the
claim that the height equals the text height plus fixed padding fails. -/
theorem label_bg_height_unpadded :
    predictionOps (fun _ => 50) ⟨"person", 97 / 100, 10, 20, 100, 200⟩ =
      [ .strokeRect 10 20 100 200,
        .setFillStyle "#0F0",
        .fillRect 8 20 54 (-12),
        .setFillStyle "#00F",
        .fillText "person 97.00" 10 20 ] ∧
    ¬ ∃ pad : ℚ, (54 : ℚ) = 50 + pad ∧ (12 : ℚ) = 12 + pad := by
  constructor
  · simp only [predictionOps, predictionText_person, lineWidth, heightText]
    norm_num
  · rintro ⟨pad, h1, h2⟩
    have hp4 : pad = 4 := by linarith
    have hp0 : pad = 0 := by linarith
    rw [hp4] at hp0
    exact absurd hp0 (by norm_num)

/-- C5 (amended): for every prediction, `drawBBox` emits a filled
label-background rectangle whose top-left x is the outline's x shifted left
by half the line width, anchored at the outline's top-left y and extending
upward (negative height); its width is the measured label text width plus
the line width (4) and its height magnitude is exactly the text height
(12), with no vertical padding. -/
theorem label_bg_geometry (measure : String → ℚ) (p : Prediction) :
    (predictionOps measure p).get? 2 =
      some (.fillRect (p.bboxX - lineWidth / 2) p.bboxY
        (measure (predictionText p) + lineWidth) (-heightText)) ∧
    lineWidth = 4 ∧ heightText = 12 :=
  ⟨rfl, rfl, rfl⟩

/-- C6: the text drawn for a prediction is the class, one space, and the
score times 100 formatted by `toFixed(2)`; in particular score `0.8345`
formats to `"83.45"` and score `0.97` to `"97.00"` (trailing zeros kept). -/
theorem label_text_format (measure : String → ℚ) (p : Prediction) :
    (predictionOps measure p).get? 4 =
      some (.fillText (p.cls ++ " " ++ toFixed2 (p.score * 100))
        p.bboxX p.bboxY) ∧
    toFixed2 ((8345 / 10000 : ℚ) * 100) = "83.45" ∧
    toFixed2 ((97 / 100 : ℚ) * 100) = "97.00" :=
  ⟨rfl, toFixed2_8345, toFixed2_97⟩

/-- C7: the pixel-affecting operations of `drawBBox` are exactly: first the
clear of the full canvas extent, then, for each prediction in list order,
the outline rectangle, the label-background rectangle, and the label text —
nothing drawn precedes the clear. -/
theorem render_clear_then_draw_in_order (measure : String → ℚ) (cw ch : ℚ)
    (preds : List Prediction) :
    (drawBBox measure cw ch preds).filter CanvasOp.isDraw
      = CanvasOp.clearRect 0 0 cw ch ::
        (preds.flatMap fun p =>
          [ CanvasOp.strokeRect p.bboxX p.bboxY p.bboxW p.bboxH,
            CanvasOp.fillRect (p.bboxX - lineWidth / 2) p.bboxY
              (measure (predictionText p) + lineWidth) (-heightText),
            CanvasOp.fillText (predictionText p) p.bboxX p.bboxY ]) := by
  simp [drawBBox, List.filter_append, CanvasOp.isDraw,
    forEachOps_filter_isDraw]

/-- C8: on the empty prediction list, `drawBBox` issues the full-canvas
clear and the context-state assignments only — no stroke, fill, or text
operation. -/
theorem empty_render_only_clear (measure : String → ℚ) (cw ch : ℚ) :
    drawBBox measure cw ch [] =
      [ .clearRect 0 0 cw ch,
        .setStrokeStyle "red",
        .setLineWidth lineWidth,
        .setTextBaseline "bottom",
        .setFont "12px sans-serif" ] ∧
    (drawBBox measure cw ch []).filter CanvasOp.isDraw
      = [.clearRect 0 0 cw ch] := by
  exact ⟨rfl, rfl⟩

/-- C9: if the model-load promise rejects, `Promise.all` rejects, so the
`then` callback never runs — `detectionFunction` is never invoked and the
loop never starts — and the rejection is logged by the `catch` at
App.js line 152. -/
theorem model_rejection_no_loop (e : Env) (hm : e.modelOutcome = .rejected) :
    detectionStarted e = false ∧ initErrorLogged e = true := by
  cases hq : e.cameraGranted <;>
    simp [detectionStarted, initErrorLogged, initPromise, promiseAll,
      promiseModel, promiseCamera, hm, hq]

/-- Witness for C9 at a concrete environment. -/
theorem model_rejection_no_loop_witness :
    detectionStarted ⟨true, 0, 1, .rejected, 2⟩ = false ∧
    initErrorLogged ⟨true, 0, 1, .rejected, 2⟩ = true :=
  model_rejection_no_loop ⟨true, 0, 1, .rejected, 2⟩ rfl

/-- C10: each invocation of the `detectionFunction` body performs exactly
one `requestAnimationFrame` scheduling call — the body is a constant action
trace independent of any detect outcome, so this holds whether the detect
call resolves, rejects, or never settles — and along every reachable loop
state the number of pending scheduled ticks never exceeds one. -/
theorem one_schedule_per_tick :
    detectionFunction.count .scheduleNext = 1 ∧
    ∀ s : LoopState, Reachable s → s.pending ≤ 1 := by
  refine ⟨by decide, ?_⟩
  intro s h
  induction h with
  | init => decide
  | @step u t hr hst ih =>
      cases hst with
      | tick ht =>
          have hrb : (runBody { u with pending := u.pending - 1 }).pending
              = u.pending - 1 + 1 := rfl
          omega
      | resolve ht => exact ih
      | reject ht => exact ih

/-- Witness for C10 at the initial loop state. -/
theorem one_schedule_per_tick_witness :
    detectionFunction.count .scheduleNext = 1 ∧ initState.pending ≤ 1 :=
  ⟨one_schedule_per_tick.1, one_schedule_per_tick.2 initState Reachable.init⟩

end CameraApp
